import Mathlib

/-!
Shallow embedding of the quality-check engine in
`src/data_quality_checker.py` (class `DataQualityChecker`).

Modelling conventions:
* A pandas cell is `Cell`: `null` stands for NaN/None, `num` for a numeric
  value (exact rational in place of a float), `str` for a string value.
* A pandas column (`Series`) is `Col`: name, dtype and the list of cells.
  A `DataFrame` is the ordered list of its columns; `nRows` is the length
  of the first column (uniformity of lengths is `DataFrame.Uniform`).
* Division at a zero denominator yields no finite value: numpy/pandas
  produce NaN or infinity, plain Python raises `ZeroDivisionError`.  Both
  outcomes are modelled by `none` of `Option ℚ` (`npDiv`), so a percentage
  field is `Option ℚ` and `none` means "NaN or error", never a number.
* `str.isdigit` is modelled on ASCII digits (`Char.isDigit`); the wider
  Unicode digit classes do not occur in the data this tool targets.
* `describe().std`, `skew()` and `kurtosis()` involve square roots, which
  leave ℚ; the summary-statistics record stores the exactly representable
  statistics and the central-moment sums those three are derived from.
-/

namespace DQC

/-- Value stored in one cell of a column: `null` models pandas NaN/None. -/
inductive Cell where
  | null : Cell
  | num : ℚ → Cell
  | str : String → Cell
deriving DecidableEq, Repr

/-- Pandas dtype of a column, restricted to the kinds the checker
dispatches on (`select_dtypes` with `np.number`, `"object"`,
`"datetime64"`). -/
inductive Dtype where
  | int64 : Dtype
  | float64 : Dtype
  | object : Dtype
  | datetime64 : Dtype
deriving DecidableEq, Repr

/-- Display string of a dtype, as `str(self.df[col].dtype)` renders it. -/
def Dtype.render : Dtype → String
  | .int64 => "int64"
  | .float64 => "float64"
  | .object => "object"
  | .datetime64 => "datetime64[ns]"

/-- A named, typed column of a data frame. -/
structure Col where
  name : String
  dtype : Dtype
  values : List Cell
deriving DecidableEq, Repr

/-- A data frame: its ordered list of columns. -/
structure DataFrame where
  cols : List Col
deriving DecidableEq, Repr

/-- Row count of a data frame (`len(self.df)`): length of the first
column, 0 when there are no columns. -/
def DataFrame.nRows : DataFrame → ℕ
  | ⟨[]⟩ => 0
  | ⟨c :: _⟩ => c.values.length

/-- Well-formedness: all columns have the row count. -/
def DataFrame.Uniform (df : DataFrame) : Prop :=
  ∀ c ∈ df.cols, c.values.length = df.nRows

instance (df : DataFrame) : Decidable df.Uniform :=
  inferInstanceAs (Decidable (∀ c ∈ df.cols, c.values.length = df.nRows))

/-- Division with the zero denominator made explicit: `none` models the
absence of a finite value (numpy/pandas yield NaN or infinity on a zero
denominator; plain Python raises `ZeroDivisionError`). -/
def npDiv (a b : ℚ) : Option ℚ :=
  if b = 0 then none else some (a / b)

/-- Keep the first occurrence of each element, drop later repeats — the
order `pandas.Series.unique` reports values in.  `seen` accumulates the
elements already emitted. -/
def dedupFirstAux {α : Type} [DecidableEq α] (seen : List α) : List α → List α
  | [] => []
  | x :: xs => if x ∈ seen then dedupFirstAux seen xs else x :: dedupFirstAux (x :: seen) xs

/-- First-occurrence de-duplication of a list. -/
def dedupFirst {α : Type} [DecidableEq α] (l : List α) : List α :=
  dedupFirstAux [] l

/-- Is the cell non-null (`notna`)? -/
def Cell.notNull : Cell → Bool
  | .null => false
  | _ => true

/-- Numeric content of a cell, if any. -/
def Cell.asNum : Cell → Option ℚ
  | .num q => some q
  | _ => none

/-- Display string of a cell, as `astype(str)` renders it (string cells
render as themselves; the rendering of numeric cells is a fixed injection
into strings; nulls render as `"nan"` but are always dropped first by the
caller). -/
def Cell.render : Cell → String
  | .null => "nan"
  | .num q => toString q
  | .str s => s

/-- Non-null cells of a column (`self.df[col].dropna()`). -/
def Col.dropna (c : Col) : List Cell :=
  c.values.filter Cell.notNull

/-- The numeric values among a column's cells, in order.  For a column of
numeric dtype this is exactly `dropna()`, since such a column holds only
numbers and NaN. -/
def Col.nonNullNums (c : Col) : List ℚ :=
  c.values.filterMap Cell.asNum

/-- Number of null cells in a column (`self.df[col].isnull().sum()`). -/
def Col.missingCount (c : Col) : ℕ :=
  c.values.countP (fun v => decide (v = Cell.null))

/-- Does `select_dtypes(include=[np.number])` keep this column? -/
def Col.isNumeric (c : Col) : Bool :=
  decide (c.dtype = Dtype.int64 ∨ c.dtype = Dtype.float64)

/-- Number of distinct non-null values (`nunique(dropna=True)`). -/
def Col.nunique (c : Col) : ℕ :=
  (dedupFirst c.dropna).length

/-- Result payload of `check_missing_values`.  Per-column dictionaries are
association lists in dataset column order, as a pandas `to_dict` of a
Series indexed by the columns. -/
structure MissingValuesResult where
  total_missing : ℕ
  missing_by_column : List (String × ℕ)
  missing_percentage_by_column : List (String × Option ℚ)
  columns_with_missing : List String
deriving DecidableEq, Repr

/-- `check_missing_values`: per-column null counts, their percentages of
the row count, the grand total, and the columns having at least one null
(in dataset column order). -/
def check_missing_values (df : DataFrame) : MissingValuesResult :=
  { total_missing := (df.cols.map Col.missingCount).sum
    missing_by_column := df.cols.map (fun c => (c.name, c.missingCount))
    missing_percentage_by_column :=
      df.cols.map (fun c =>
        (c.name, (npDiv (c.missingCount : ℚ) (df.nRows : ℚ)).map (· * 100)))
    columns_with_missing :=
      (df.cols.filter (fun c => decide (0 < c.missingCount))).map Col.name }

/-- Result payload of `check_data_types`. -/
structure DataTypesResult where
  column_types : List (String × String)
  numeric_columns : List String
  categorical_columns : List String
  datetime_columns : List String
deriving DecidableEq, Repr

/-- `check_data_types`: dtype display string per column and the three
dtype-partitioned column-name lists. -/
def check_data_types (df : DataFrame) : DataTypesResult :=
  { column_types := df.cols.map (fun c => (c.name, c.dtype.render))
    numeric_columns := (df.cols.filter Col.isNumeric).map Col.name
    categorical_columns :=
      (df.cols.filter (fun c => decide (c.dtype = Dtype.object))).map Col.name
    datetime_columns :=
      (df.cols.filter (fun c => decide (c.dtype = Dtype.datetime64))).map Col.name }

/-- Row `i` of the data frame, as the tuple of its columns' cells at
index `i`. -/
def DataFrame.row (df : DataFrame) (i : ℕ) : List Cell :=
  df.cols.map (fun c => c.values.getD i Cell.null)

/-- `self.df.duplicated().sum()`: the number of row indices whose full row
equals the row at some earlier index. -/
def DataFrame.duplicateRowCount (df : DataFrame) : ℕ :=
  (List.range df.nRows).countP
    (fun i => (List.range i).any (fun j => decide (df.row j = df.row i)))

/-- Result payload of `check_duplicates`. -/
structure DuplicatesResult where
  total_duplicate_rows : ℕ
  duplicate_percentage : Option ℚ
deriving DecidableEq, Repr

/-- `check_duplicates`: the duplicated-row count and its percentage of the
row count. -/
def check_duplicates (df : DataFrame) : DuplicatesResult :=
  { total_duplicate_rows := df.duplicateRowCount
    duplicate_percentage :=
      (npDiv (df.duplicateRowCount : ℚ) (df.nRows : ℚ)).map (· * 100) }

/-- Linear interpolation into a sorted list at fractional position `h`
(numpy's default interpolation of `Series.quantile`): the value at index
`⌊h⌋`, moved toward the next entry by the fractional part of `h`. -/
def interpAt (s : List ℚ) (h : ℚ) : ℚ :=
  let i : ℕ := (⌊h⌋).toNat
  let lo := s.getD i 0
  let hi := s.getD (min (i + 1) (s.length - 1)) 0
  lo + (h - (i : ℚ)) * (hi - lo)

/-- `Series.quantile(p)` over the non-null values `xs`: sort ascending and
linearly interpolate at position `(len - 1) * p`. -/
def quantile (xs : List ℚ) (p : ℚ) : ℚ :=
  interpAt (List.insertionSort (· ≤ ·) xs)
    ((((List.insertionSort (· ≤ ·) xs).length - 1 : ℕ) : ℚ) * p)

/-- Result payload of `check_numeric_outliers` for one column. -/
structure OutlierRecord where
  outlier_count : ℕ
  outlier_percentage : Option ℚ
  lower_bound : ℚ
  upper_bound : ℚ
deriving DecidableEq, Repr

/-- Tukey-fence record of one numeric column: Q1/Q3 by linear-interpolated
quantiles of the non-null values, fences at 1.5·IQR, and the count of
values strictly outside them.  The count ranges over the non-null values:
the source compares the full column, and NaN compares false to both
fences. -/
def outlierRecordOf (df : DataFrame) (c : Col) : OutlierRecord :=
  let xs := c.nonNullNums
  let q1 := quantile xs (1 / 4)
  let q3 := quantile xs (3 / 4)
  let iqr := q3 - q1
  let lower_bound := q1 - (3 / 2) * iqr
  let upper_bound := q3 + (3 / 2) * iqr
  let outlier_count :=
    xs.countP (fun x => decide (x < lower_bound) || decide (upper_bound < x))
  { outlier_count := outlier_count
    outlier_percentage := (npDiv (outlier_count : ℚ) (df.nRows : ℚ)).map (· * 100)
    lower_bound := lower_bound
    upper_bound := upper_bound }

/-- `check_numeric_outliers`: one record per numeric column, skipping
(`continue`) any numeric column whose `dropna()` is empty. -/
def check_numeric_outliers (df : DataFrame) : List (String × OutlierRecord) :=
  (df.cols.filter Col.isNumeric).filterMap (fun c =>
    if c.nonNullNums.isEmpty then none
    else some (c.name, outlierRecordOf df c))

/-- Result payload of `check_cardinality` for one column. -/
structure CardinalityRecord where
  unique_values : ℕ
  cardinality_percentage : Option ℚ
  high_cardinality : Bool
deriving DecidableEq, Repr

/-- Cardinality record of one column: the distinct non-null count, its
percentage of the row count, and the more-than-half-the-rows flag. -/
def cardRecordOf (df : DataFrame) (c : Col) : CardinalityRecord :=
  { unique_values := c.nunique
    cardinality_percentage := (npDiv (c.nunique : ℚ) (df.nRows : ℚ)).map (· * 100)
    high_cardinality := decide ((df.nRows : ℚ) * (1 / 2) < (c.nunique : ℚ)) }

/-- `check_cardinality`: one cardinality record per object-dtype
column. -/
def check_cardinality (df : DataFrame) : List (String × CardinalityRecord) :=
  (df.cols.filter (fun c => decide (c.dtype = Dtype.object))).map (fun c =>
    (c.name, cardRecordOf df c))

/-- Sum of `k`-th powers of deviations from `m` — the central-moment sums
that `describe().std`, `skew()` and `kurtosis()` are computed from. -/
def momentSum (xs : List ℚ) (m : ℚ) (k : ℕ) : ℚ :=
  (xs.map (fun x => (x - m) ^ k)).sum

/-- Per-column payload of `generate_summary_statistics`: the exactly
representable parts of `describe()` (count, mean, min, the three
quartiles, max) plus the second, third and fourth central-moment sums of
the non-null values, from which std (a square root of `m2`-based
variance), skewness and kurtosis are derived.  `none` models the NaN that
pandas reports for an empty column. -/
structure SummaryRecord where
  count : ℕ
  mean : Option ℚ
  minV : Option ℚ
  q25 : Option ℚ
  q50 : Option ℚ
  q75 : Option ℚ
  maxV : Option ℚ
  m2 : Option ℚ
  m3 : Option ℚ
  m4 : Option ℚ
deriving DecidableEq, Repr

/-- Summary record of one list of non-null numeric values. -/
def summaryRecordOf (xs : List ℚ) : SummaryRecord :=
  let s := List.insertionSort (· ≤ ·) xs
  let mu := npDiv xs.sum (xs.length : ℚ)
  { count := xs.length
    mean := mu
    minV := s.head?
    q25 := if xs.isEmpty then none else some (quantile xs (1 / 4))
    q50 := if xs.isEmpty then none else some (quantile xs (1 / 2))
    q75 := if xs.isEmpty then none else some (quantile xs (3 / 4))
    maxV := s.getLast?
    m2 := mu.map (fun m => momentSum xs m 2)
    m3 := mu.map (fun m => momentSum xs m 3)
    m4 := mu.map (fun m => momentSum xs m 4) }

/-- `generate_summary_statistics`: one summary record per numeric
column. -/
def generate_summary_statistics (df : DataFrame) : List (String × SummaryRecord) :=
  (df.cols.filter Col.isNumeric).map (fun c => (c.name, summaryRecordOf c.nonNullNums))

/-- Python `str.isdigit` on the strings in scope: non-empty and all
characters decimal digits. -/
def pyIsDigit (s : String) : Bool :=
  decide (s.data ≠ []) && s.data.all Char.isDigit

/-- Drop the first occurrence of character `c`, as
`str.replace(c, "", 1)` does. -/
def removeFirst (c : Char) : List Char → List Char
  | [] => []
  | x :: xs => if x = c then xs else x :: removeFirst c xs

/-- `s.replace(".", "", 1).isdigit()`: does `s` read as a numeric literal
— all digits with at most one decimal point? -/
def numericLikeStr (s : String) : Bool :=
  pyIsDigit ⟨removeFirst (Char.ofNat 46) s.data⟩

/-- Result payload of `inspect_column_samples` for one column. -/
structure SampleRecord where
  detected_type : String
  sample_values : List String
  notes : String
deriving DecidableEq, Repr

/-- The advisory note of `inspect_column_samples`: attached when the
column dtype is `object` and strictly more than 60% of the sampled
strings are numeric-like (the guard `len(samples) > 0` always holds after
the sentinel substitution). -/
def noteFor (dtype : Dtype) (samples : List String) : String :=
  if dtype = Dtype.object then
    if decide (0 < samples.length) &&
        decide ((3 / 5 : ℚ) < (samples.countP numericLikeStr : ℚ) / (samples.length : ℚ))
    then "POSSIBLE NUMERIC STORED AS STRING"
    else ""
  else ""

/-- Sample strings of one column: up to `k` distinct non-null values
rendered as strings in first-encounter order
(`dropna().astype(str).unique()[:k]`), or the sentinel when none
exist. -/
def sampleOf (k : ℕ) (c : Col) : List String :=
  if ((dedupFirst (c.dropna.map Cell.render)).take k).isEmpty then
    ["<no non-null values>"]
  else (dedupFirst (c.dropna.map Cell.render)).take k

/-- Sample record of one column: the dtype display string, the sample
strings and the advisory note computed on them. -/
def sampleRecordOf (k : ℕ) (c : Col) : SampleRecord :=
  { detected_type := c.dtype.render
    sample_values := sampleOf k c
    notes := noteFor c.dtype (sampleOf k c) }

/-- `inspect_column_samples`: one sample record per column, every column
included. -/
def inspect_column_samples (k : ℕ) (df : DataFrame) : List (String × SampleRecord) :=
  df.cols.map (fun c => (c.name, sampleRecordOf k c))

/-- Payload of the `basic_info` report entry.  `load_timestamp` is the
wall-clock string, passed in as a parameter (`now`) since it is the one
non-deterministic output. -/
structure BasicInfo where
  file_name : String
  total_rows : ℕ
  total_columns : ℕ
  load_timestamp : String
deriving DecidableEq, Repr

/-- How `load_data` can fail: no path and no data frame supplied, an
unrecognized filename suffix (the raised `ValueError`, kind
`UnsupportedFormat`), or a parser failure on a recognized format (kind
`LoadError`, carrying the message of the underlying cause). -/
inductive LoadFailure where
  | noInput : LoadFailure
  | unsupportedFormat : LoadFailure
  | loadError : String → LoadFailure
deriving DecidableEq, Repr

/-- Constructor state of `DataQualityChecker`: optional file path,
optional pre-built data frame, optional display name. -/
structure Engine where
  file_path : Option String
  df : Option DataFrame
  file_name : Option String
deriving Repr

/-- Python `s.split("/")[-1]`. -/
def lastPathComponent (p : String) : String :=
  (p.splitOn "/").getLastD p

/-- Display name of the engine: the given name, else the last path
component, else the literal `DataFrame`. -/
def Engine.displayName (e : Engine) : String :=
  match e.file_name with
  | some n => n
  | none =>
    match e.file_path with
    | some p => lastPathComponent p
    | none => "DataFrame"

/-- Python `s.endswith(suffix)`. -/
def pyEndsWith (s suffix : String) : Bool :=
  suffix.data.isSuffixOf s.data

/-- The three format parsers (`pd.read_csv`, `pd.read_excel`,
`pd.read_parquet`) are external collaborators: any family of fallible
functions from a path to a data frame. -/
structure Readers where
  readCsv : String → Except String DataFrame
  readXlsx : String → Except String DataFrame
  readParquet : String → Except String DataFrame

/-- Wrap a parser outcome: a parser exception is caught by the
`except` block and becomes a `LoadError` failure. -/
def parsed (now : String) (p : String) (r : Except String DataFrame) :
    Except LoadFailure (DataFrame × BasicInfo) :=
  match r with
  | .error m => .error (.loadError m)
  | .ok d =>
    .ok (d, { file_name := lastPathComponent p
              total_rows := d.nRows
              total_columns := d.cols.length
              load_timestamp := now })

/-- `load_data`: use the pre-built data frame when given; fail with
`noInput` when neither it nor a path exists; otherwise dispatch on the
path suffix to one of three parsers, failing with `unsupportedFormat` on
an unrecognized suffix.  On success the loaded frame is paired with the
`basic_info` record. -/
def load_data (R : Readers) (now : String) (e : Engine) :
    Except LoadFailure (DataFrame × BasicInfo) :=
  match e.df with
  | some d =>
    .ok (d, { file_name := e.displayName
              total_rows := d.nRows
              total_columns := d.cols.length
              load_timestamp := now })
  | none =>
    match e.file_path with
    | none => .error .noInput
    | some p =>
      if pyEndsWith p ".csv" then parsed now p (R.readCsv p)
      else if pyEndsWith p ".xlsx" then parsed now p (R.readXlsx p)
      else if pyEndsWith p ".parquet" then parsed now p (R.readParquet p)
      else .error .unsupportedFormat

/-- One entry of the quality-report dictionary. -/
inductive CheckResult where
  | basic : BasicInfo → CheckResult
  | missing : MissingValuesResult → CheckResult
  | types : DataTypesResult → CheckResult
  | dups : DuplicatesResult → CheckResult
  | outliers : List (String × OutlierRecord) → CheckResult
  | card : List (String × CardinalityRecord) → CheckResult
  | summary : List (String × SummaryRecord) → CheckResult
  | samples : List (String × SampleRecord) → CheckResult
deriving DecidableEq, Repr

/-- The quality report: the `quality_report` dictionary in insertion
order. -/
def QReport : Type := List (String × CheckResult)

/-- `run_all_checks`: `None` when loading fails, otherwise the report
with every check's entry, written in the source's fixed order. -/
def run_all_checks (R : Readers) (now : String) (e : Engine) : Option QReport :=
  match load_data R now e with
  | .error _ => none
  | .ok (df, bi) =>
    some [("basic_info", .basic bi),
          ("missing_values", .missing (check_missing_values df)),
          ("data_types", .types (check_data_types df)),
          ("duplicates", .dups (check_duplicates df)),
          ("outliers", .outliers (check_numeric_outliers df)),
          ("cardinality", .card (check_cardinality df)),
          ("summary_statistics", .summary (generate_summary_statistics df)),
          ("sample_inspection", .samples (inspect_column_samples 3 df))]

/-- The eight keys of a complete quality report, in insertion order. -/
def allReportKeys : List String :=
  ["basic_info", "missing_values", "data_types", "duplicates",
   "outliers", "cardinality", "summary_statistics", "sample_inspection"]

/-- Readers all of whose parsers fail. -/
def failingReaders : Readers :=
  { readCsv := fun _ => .error "parse error"
    readXlsx := fun _ => .error "parse error"
    readParquet := fun _ => .error "parse error" }

/-- Engine built over a pre-supplied empty data frame. -/
def emptyFrameEngine : Engine :=
  { file_path := none, df := some ⟨[]⟩, file_name := none }

/-- Engine built over a path only. -/
def pathEngine (p : String) : Engine :=
  { file_path := some p, df := none, file_name := none }

/-- A data frame with one object column and zero rows. -/
def zeroRowFrame : DataFrame :=
  ⟨[{ name := "a", dtype := Dtype.object, values := [] }]⟩

/-- C3: whenever `run_all_checks` returns a report, that report carries
exactly the eight check keys, in the source's order — a partially filled
report is never a terminal success state. -/
theorem runAllChecks_success_report_complete (R : Readers) (now : String)
    (e : Engine) (rep : QReport) (h : run_all_checks R now e = some rep) :
    rep.map Prod.fst = allReportKeys := by
  unfold run_all_checks at h
  split at h
  · exact absurd h (by simp)
  · injection h with h
    subst h
    rfl

/-- The quality report of the empty data frame, written out. -/
def emptyFrameReport : QReport :=
  [("basic_info", .basic ⟨"DataFrame", 0, 0, "t"⟩),
   ("missing_values", .missing ⟨0, [], [], []⟩),
   ("data_types", .types ⟨[], [], [], []⟩),
   ("duplicates", .dups ⟨0, none⟩),
   ("outliers", .outliers []),
   ("cardinality", .card []),
   ("summary_statistics", .summary []),
   ("sample_inspection", .samples [])]

/-- Witness for C3 at a concrete engine holding an empty data frame. -/
theorem runAllChecks_success_report_complete_witness :
    run_all_checks failingReaders "t" emptyFrameEngine = some emptyFrameReport ∧
      emptyFrameReport.map Prod.fst = allReportKeys :=
  ⟨rfl, runAllChecks_success_report_complete failingReaders "t" emptyFrameEngine
    emptyFrameReport rfl⟩

/-- C10: with neither a file path nor a data frame, loading fails with
the no-input kind and `run_all_checks` returns the sentinel absence
result. -/
theorem runAllChecks_noInput_returns_none (R : Readers) (now : String) :
    load_data R now ⟨none, none, none⟩ = .error .noInput ∧
      run_all_checks R now ⟨none, none, none⟩ = none :=
  ⟨rfl, rfl⟩

/-- C4: an unrecognized suffix fails with kind `UnsupportedFormat`; a
parser failure on any of the three recognized suffixes fails with kind
`LoadError` carrying the cause; in every such case `run_all_checks`
returns the sentinel absence result rather than raising or returning a
partial report. -/
theorem loadFailure_kinds_and_absence (R : Readers) (now p msg : String) :
    (pyEndsWith p ".csv" = false → pyEndsWith p ".xlsx" = false →
      pyEndsWith p ".parquet" = false →
      load_data R now (pathEngine p) = .error .unsupportedFormat ∧
        run_all_checks R now (pathEngine p) = none) ∧
    (pyEndsWith p ".csv" = true → R.readCsv p = .error msg →
      load_data R now (pathEngine p) = .error (.loadError msg) ∧
        run_all_checks R now (pathEngine p) = none) ∧
    (pyEndsWith p ".csv" = false → pyEndsWith p ".xlsx" = true →
      R.readXlsx p = .error msg →
      load_data R now (pathEngine p) = .error (.loadError msg) ∧
        run_all_checks R now (pathEngine p) = none) ∧
    (pyEndsWith p ".csv" = false → pyEndsWith p ".xlsx" = false →
      pyEndsWith p ".parquet" = true → R.readParquet p = .error msg →
      load_data R now (pathEngine p) = .error (.loadError msg) ∧
        run_all_checks R now (pathEngine p) = none) := by
  refine ⟨fun h1 h2 h3 => ?_, fun h1 hr => ?_, fun h1 h2 hr => ?_,
    fun h1 h2 h3 hr => ?_⟩ <;>
    simp [load_data, run_all_checks, pathEngine, parsed, *]

/-- Witness for C4: a text suffix is rejected as unsupported, and a
failing csv parse is rejected as a load error; both return no report. -/
theorem loadFailure_kinds_and_absence_witness :
    (load_data failingReaders "t" (pathEngine "data.txt") = .error .unsupportedFormat ∧
      run_all_checks failingReaders "t" (pathEngine "data.txt") = none) ∧
    (load_data failingReaders "t" (pathEngine "data.csv") =
        .error (.loadError "parse error") ∧
      run_all_checks failingReaders "t" (pathEngine "data.csv") = none) :=
  ⟨(loadFailure_kinds_and_absence failingReaders "t" "data.txt" "parse error").1
      (by decide) (by decide) (by decide),
    (loadFailure_kinds_and_absence failingReaders "t" "data.csv" "parse error").2.1
      (by decide) rfl⟩

/-- C5 (divergence witness): at a zero-row frame the percentage fields of
the missing-value, duplicate and cardinality checks all come out as
`none` — the modelled NaN/division-error, not a safe fallback value. -/
theorem zeroRows_percentages_not_finite :
    (check_missing_values zeroRowFrame).missing_percentage_by_column = [("a", none)] ∧
    (check_duplicates zeroRowFrame).duplicate_percentage = none ∧
    check_cardinality zeroRowFrame =
      [("a", { unique_values := 0, cardinality_percentage := none,
               high_cardinality := false })] := by
  refine ⟨?_, ?_, ?_⟩ <;>
    simp [check_missing_values, check_duplicates, check_cardinality, cardRecordOf,
      zeroRowFrame, npDiv, DataFrame.nRows, DataFrame.duplicateRowCount,
      Col.missingCount, Col.nunique, Col.dropna, dedupFirst, dedupFirstAux]

/-- First-occurrence de-duplication never lengthens a list. -/
theorem dedupFirstAux_length_le {α : Type} [DecidableEq α] (l : List α) :
    ∀ seen : List α, (dedupFirstAux seen l).length ≤ l.length := by
  induction l with
  | nil => intro seen; simp [dedupFirstAux]
  | cons x xs ih =>
    intro seen
    by_cases hx : x ∈ seen
    · simp only [dedupFirstAux, if_pos hx]
      exact (ih seen).trans (Nat.le_succ _)
    · simp only [dedupFirstAux, if_neg hx, List.length_cons]
      exact Nat.succ_le_succ (ih (x :: seen))

/-- The distinct-non-null count of a column is at most its cell count. -/
theorem Col.nunique_le_length (c : Col) : c.nunique ≤ c.values.length :=
  (dedupFirstAux_length_le _ _).trans (c.values.length_filter_le _)

/-- C6: with at least one row, the missing-value check reports the null
count of every column in dataset order, each percentage as the finite
value count / rows · 100, the total as the sum of the per-column counts,
and the columns with a missing value in dataset column order. -/
theorem check_missing_values_correct (df : DataFrame) (h : 0 < df.nRows) :
    (check_missing_values df).missing_by_column =
        df.cols.map (fun c =>
          (c.name, c.values.countP (fun v => decide (v = Cell.null)))) ∧
    (check_missing_values df).missing_percentage_by_column =
        df.cols.map (fun c =>
          (c.name, some ((c.missingCount : ℚ) / (df.nRows : ℚ) * 100))) ∧
    (check_missing_values df).total_missing =
        ((check_missing_values df).missing_by_column.map Prod.snd).sum ∧
    (check_missing_values df).columns_with_missing =
        (df.cols.filter (fun c => decide (0 < c.missingCount))).map Col.name := by
  have hb : ((df.nRows : ℕ) : ℚ) ≠ 0 := by
    exact_mod_cast h.ne'
  refine ⟨rfl, ?_, ?_, rfl⟩
  · simp [check_missing_values, npDiv, hb, Col.missingCount]
  · simp [check_missing_values, List.map_map, Function.comp_def]

/-- Witness for C6 at the four-row column [25, 30, null, 25]. -/
theorem check_missing_values_correct_witness :
    0 < (DataFrame.mk [⟨"age", Dtype.float64,
        [Cell.num 25, Cell.num 30, Cell.null, Cell.num 25]⟩]).nRows ∧
    (check_missing_values ⟨[⟨"age", Dtype.float64,
        [Cell.num 25, Cell.num 30, Cell.null, Cell.num 25]⟩]⟩).missing_by_column =
      [("age", 1)] := by
  refine ⟨by decide, ?_⟩
  have h := (check_missing_values_correct ⟨[⟨"age", Dtype.float64,
    [Cell.num 25, Cell.num 30, Cell.null, Cell.num 25]⟩]⟩ (by decide)).1
  rw [h]
  decide

/-- C7: with at least one row, the duplicate count is exactly the number
of row indices whose full row equals the row at some strictly earlier
index, and hence at most rows − 1. -/
theorem check_duplicates_correct (df : DataFrame) (h : 0 < df.nRows) :
    (check_duplicates df).total_duplicate_rows =
        (List.range df.nRows).countP
          (fun i => decide (∃ j < i, df.row j = df.row i)) ∧
    (check_duplicates df).total_duplicate_rows ≤ df.nRows - 1 := by
  have hcong : ∀ i : ℕ,
      ((List.range i).any (fun j => decide (df.row j = df.row i))) =
        decide (∃ j < i, df.row j = df.row i) := by
    intro i
    have : ((List.range i).any (fun j => decide (df.row j = df.row i)) = true) ↔
        (decide (∃ j < i, df.row j = df.row i) = true) := by
      simp [List.any_eq_true, List.mem_range]
    cases hb : (List.range i).any (fun j => decide (df.row j = df.row i)) <;>
      cases hd : decide (∃ j < i, df.row j = df.row i) <;> simp_all
  constructor
  · unfold check_duplicates DataFrame.duplicateRowCount
    exact List.countP_congr (fun i _ => by rw [hcong i])
  · obtain ⟨m, hm⟩ : ∃ m, df.nRows = m + 1 := ⟨df.nRows - 1, (Nat.succ_pred_eq_of_pos h).symm⟩
    unfold check_duplicates DataFrame.duplicateRowCount
    rw [hm, List.range_succ_eq_map, List.countP_cons]
    simp only [List.range_zero, List.any_nil, if_false, Nat.add_zero]
    calc ((List.range m).map Nat.succ).countP _ ≤ ((List.range m).map Nat.succ).length :=
          List.countP_le_length _
      _ = m := by simp
      _ = (m + 1) - 1 := rfl

/-- Witness for C7 at the three-row column [1, 1, 2]: one duplicate. -/
theorem check_duplicates_correct_witness :
    0 < (DataFrame.mk [⟨"a", Dtype.int64,
        [Cell.num 1, Cell.num 1, Cell.num 2]⟩]).nRows ∧
    (check_duplicates ⟨[⟨"a", Dtype.int64,
        [Cell.num 1, Cell.num 1, Cell.num 2]⟩]⟩).total_duplicate_rows ≤ 3 - 1 :=
  ⟨by decide, (check_duplicates_correct ⟨[⟨"a", Dtype.int64,
    [Cell.num 1, Cell.num 1, Cell.num 2]⟩]⟩ (by decide)).2⟩

/-- C8: the cardinality result lists exactly the object-dtype columns, in
dataset order; on a uniform frame each record reports the column's
distinct-non-null count, that count is at most the row count, and the
high-cardinality flag holds exactly when the count exceeds half the row
count. -/
theorem check_cardinality_correct (df : DataFrame) (h : df.Uniform) :
    check_cardinality df =
      (df.cols.filter (fun c => decide (c.dtype = Dtype.object))).map
        (fun c => (c.name, cardRecordOf df c)) ∧
    ∀ c ∈ df.cols, c.dtype = Dtype.object →
      (cardRecordOf df c).unique_values = c.nunique ∧
      (cardRecordOf df c).unique_values ≤ df.nRows ∧
      ((cardRecordOf df c).high_cardinality = true ↔
        (df.nRows : ℚ) * (1 / 2) < ((cardRecordOf df c).unique_values : ℚ)) := by
  refine ⟨rfl, fun c hc _ => ⟨rfl, ?_, ?_⟩⟩
  · exact (c.nunique_le_length).trans (le_of_eq (h c hc))
  · simp [cardRecordOf]

/-- Witness for C8 at the column ["x", "x", null]: one distinct value,
within the row bound. -/
theorem check_cardinality_correct_witness :
    (DataFrame.mk [⟨"s", Dtype.object,
        [Cell.str "x", Cell.str "x", Cell.null]⟩]).Uniform ∧
    (cardRecordOf ⟨[⟨"s", Dtype.object, [Cell.str "x", Cell.str "x", Cell.null]⟩]⟩
        ⟨"s", Dtype.object, [Cell.str "x", Cell.str "x", Cell.null]⟩).unique_values ≤
      (DataFrame.mk [⟨"s", Dtype.object,
        [Cell.str "x", Cell.str "x", Cell.null]⟩]).nRows :=
  ⟨by decide,
    ((check_cardinality_correct ⟨[⟨"s", Dtype.object,
        [Cell.str "x", Cell.str "x", Cell.null]⟩]⟩ (by decide)).2
      ⟨"s", Dtype.object, [Cell.str "x", Cell.str "x", Cell.null]⟩
      (by decide) (by decide)).2.1⟩

/-- Membership in a first-occurrence de-duplication: exactly the list
members not already seen. -/
theorem mem_dedupFirstAux {α : Type} [DecidableEq α] (l : List α) :
    ∀ (seen : List α) (a : α), a ∈ dedupFirstAux seen l ↔ a ∈ l ∧ a ∉ seen := by
  induction l with
  | nil => intro seen a; simp [dedupFirstAux]
  | cons x xs ih =>
    intro seen a
    by_cases hx : x ∈ seen
    · simp only [dedupFirstAux, if_pos hx, ih, List.mem_cons]
      constructor
      · rintro ⟨ha, hns⟩; exact ⟨Or.inr ha, hns⟩
      · rintro ⟨ha | ha, hns⟩
        · exact absurd (ha ▸ hx) hns
        · exact ⟨ha, hns⟩
    · simp only [dedupFirstAux, if_neg hx, List.mem_cons, ih]
      constructor
      · rintro (rfl | ⟨ha, hns⟩)
        · exact ⟨Or.inl rfl, hx⟩
        · exact ⟨Or.inr ha, fun hs => hns (Or.inr hs)⟩
      · rintro ⟨rfl | ha, hns⟩
        · exact Or.inl rfl
        · by_cases hax : a = x
          · exact Or.inl hax
          · exact Or.inr ⟨ha, by simp [hax, hns]⟩

/-- A first-occurrence de-duplication has no repeats. -/
theorem nodup_dedupFirstAux {α : Type} [DecidableEq α] (l : List α) :
    ∀ seen : List α, (dedupFirstAux seen l).Nodup := by
  induction l with
  | nil => intro seen; simp [dedupFirstAux]
  | cons x xs ih =>
    intro seen
    by_cases hx : x ∈ seen
    · simpa [dedupFirstAux, if_pos hx] using ih seen
    · rw [dedupFirstAux, if_neg hx]
      refine List.nodup_cons.mpr ⟨fun hmem => ?_, ih (x :: seen)⟩
      exact ((mem_dedupFirstAux xs (x :: seen) x).mp hmem).2 (List.mem_cons_self x seen)

/-- The length of a first-occurrence de-duplication is the number of
distinct elements. -/
theorem dedupFirst_length_eq_card {α : Type} [DecidableEq α] (l : List α) :
    (dedupFirst l).length = l.toFinset.card := by
  have hset : (dedupFirst l).toFinset = l.toFinset := by
    ext a
    simp [dedupFirst, List.mem_toFinset, mem_dedupFirstAux]
  calc (dedupFirst l).length = (dedupFirst l).toFinset.card :=
        (List.toFinset_card_of_nodup (nodup_dedupFirstAux l [])).symm
    _ = l.toFinset.card := by rw [hset]

/-- Mapping before de-duplicating cannot raise the distinct count. -/
theorem dedupFirst_map_length_le {α β : Type} [DecidableEq α] [DecidableEq β]
    (f : α → β) (l : List α) :
    (dedupFirst (l.map f)).length ≤ (dedupFirst l).length := by
  rw [dedupFirst_length_eq_card, dedupFirst_length_eq_card]
  have himg : (l.map f).toFinset = l.toFinset.image f := by
    ext b
    simp [List.mem_toFinset, List.mem_map, Finset.mem_image]
  rw [himg]
  exact Finset.card_image_le

/-- De-duplicating a non-empty list yields a non-empty list. -/
theorem dedupFirst_ne_nil {α : Type} [DecidableEq α] (x : α) (xs : List α) :
    dedupFirst (x :: xs) ≠ [] := by
  simp [dedupFirst, dedupFirstAux]

/-- The notes projection of a sample record is the advisory note computed
on its own sample values. -/
theorem sampleRecordOf_notes (k : ℕ) (c : Col) :
    (sampleRecordOf k c).notes = noteFor c.dtype (sampleRecordOf k c).sample_values :=
  rfl

/-- A sample record always carries at least one sample string (the
sentinel substitutes for an empty sample). -/
theorem sampleRecordOf_length_pos (k : ℕ) (c : Col) :
    0 < (sampleRecordOf k c).sample_values.length := by
  show 0 < (sampleOf k c).length
  unfold sampleOf
  split
  · simp
  · next h =>
    simp only [List.isEmpty_iff] at h
    exact List.length_pos.mpr h

/-- Attachment condition of the advisory note on a non-empty sample:
object dtype and a strictly-more-than-60% numeric-like share. -/
theorem noteFor_ne_empty_iff (dtype : Dtype) (samples : List String)
    (h : 0 < samples.length) :
    noteFor dtype samples ≠ "" ↔ dtype = Dtype.object ∧
      (3 / 5 : ℚ) < (samples.countP numericLikeStr : ℚ) / (samples.length : ℚ) := by
  by_cases hd : dtype = Dtype.object
  · by_cases hr : (3 / 5 : ℚ) < (samples.countP numericLikeStr : ℚ) / (samples.length : ℚ)
    · simp [noteFor, hd, hr, h]
    · simp [noteFor, hd, hr, h]
  · simp [noteFor, hd]

/-- C9: every column yields its sample record; a column with no non-null
value gets exactly the one sentinel string; otherwise the sample holds at
most min(k, distinct-non-null-count) strings; and the advisory note is
attached exactly when the dtype is object and strictly more than 60% of
the sampled strings are numeric-like. -/
theorem inspect_column_samples_correct (df : DataFrame) (c : Col)
    (hc : c ∈ df.cols) :
    (c.name, sampleRecordOf 3 c) ∈ inspect_column_samples 3 df ∧
    (c.dropna = [] → (sampleRecordOf 3 c).sample_values = ["<no non-null values>"]) ∧
    (c.dropna ≠ [] →
      (sampleRecordOf 3 c).sample_values.length ≤ min 3 c.nunique) ∧
    ((sampleRecordOf 3 c).notes ≠ "" ↔ c.dtype = Dtype.object ∧
      (3 / 5 : ℚ) <
        ((sampleRecordOf 3 c).sample_values.countP numericLikeStr : ℚ) /
          ((sampleRecordOf 3 c).sample_values.length : ℚ)) := by
  refine ⟨List.mem_map.mpr ⟨c, hc, rfl⟩, ?_, ?_, ?_⟩
  · intro hnil
    show sampleOf 3 c = _
    simp [sampleOf, hnil, dedupFirst, dedupFirstAux]
  · intro hne
    obtain ⟨x, xs, hx⟩ : ∃ x xs, c.dropna = x :: xs := by
      cases hcd : c.dropna with
      | nil => exact absurd hcd hne
      | cons x xs => exact ⟨x, xs, rfl⟩
    have hmapne : dedupFirst (c.dropna.map Cell.render) ≠ [] := by
      rw [hx]; exact dedupFirst_ne_nil _ _
    have hrec : (sampleRecordOf 3 c).sample_values =
        (dedupFirst (c.dropna.map Cell.render)).take 3 := by
      show sampleOf 3 c = _
      unfold sampleOf
      split
      · next hemp =>
        rw [List.isEmpty_iff, List.take_eq_nil_iff] at hemp
        rcases hemp with h3 | h0
        · exact absurd h3 (by norm_num)
        · exact absurd h0 hmapne
      · rfl
    rw [hrec, List.length_take]
    exact min_le_min le_rfl (dedupFirst_map_length_le Cell.render c.dropna)
  · rw [sampleRecordOf_notes]
    exact noteFor_ne_empty_iff c.dtype _ (sampleRecordOf_length_pos 3 c)

/-- Witness for C9 at a three-valued object column: sample length within
the bound. -/
theorem inspect_column_samples_correct_witness :
    (Col.mk "n" Dtype.object [Cell.str "1", Cell.str "2", Cell.str "3"]) ∈
      (DataFrame.mk [⟨"n", Dtype.object,
        [Cell.str "1", Cell.str "2", Cell.str "3"]⟩]).cols ∧
    (sampleRecordOf 3 ⟨"n", Dtype.object,
        [Cell.str "1", Cell.str "2", Cell.str "3"]⟩).sample_values.length ≤
      min 3 (Col.mk "n" Dtype.object
        [Cell.str "1", Cell.str "2", Cell.str "3"]).nunique :=
  ⟨by decide,
    (inspect_column_samples_correct ⟨[⟨"n", Dtype.object,
      [Cell.str "1", Cell.str "2", Cell.str "3"]⟩]⟩ _ (by decide)).2.2.1 (by decide)⟩

/-- In a sorted list, entries read with a default are monotone below the
length. -/
theorem sorted_getD_mono (s : List ℚ) (hs : s.Sorted (· ≤ ·)) (i j : ℕ)
    (hij : i ≤ j) (hj : j < s.length) : s.getD i 0 ≤ s.getD j 0 := by
  have hi : i < s.length := lt_of_le_of_lt hij hj
  have h1 : s.getD i 0 = s.get ⟨i, hi⟩ := by
    simp [List.getD_eq_getElem?_getD, List.getElem?_eq_getElem hi]
  have h2 : s.getD j 0 = s.get ⟨j, hj⟩ := by
    simp [List.getD_eq_getElem?_getD, List.getElem?_eq_getElem hj]
  rw [h1, h2]
  exact hs.rel_get_of_le (Fin.mk_le_mk.mpr hij)

/-- Linear interpolation into a non-empty sorted list is monotone in the
position, over the valid position range. -/
theorem interpAt_mono (s : List ℚ) (hs : s.Sorted (· ≤ ·)) (hne : s ≠ [])
    (h₁ h₂ : ℚ) (h0 : 0 ≤ h₁) (h12 : h₁ ≤ h₂)
    (hn : h₂ ≤ ((s.length - 1 : ℕ) : ℚ)) :
    interpAt s h₁ ≤ interpAt s h₂ := by
  have npos : 0 < s.length := List.length_pos.mpr hne
  have h0' : 0 ≤ h₂ := h0.trans h12
  have hfl₁ : (0 : ℤ) ≤ ⌊h₁⌋ := Int.floor_nonneg.mpr h0
  have hfl₂ : (0 : ℤ) ≤ ⌊h₂⌋ := Int.floor_nonneg.mpr h0'
  have hi₁le : ((⌊h₁⌋.toNat : ℕ) : ℚ) ≤ h₁ := by
    have h : ((⌊h₁⌋.toNat : ℤ) : ℚ) ≤ h₁ := by
      rw [Int.toNat_of_nonneg hfl₁]; exact Int.floor_le h₁
    exact_mod_cast h
  have hi₂le : ((⌊h₂⌋.toNat : ℕ) : ℚ) ≤ h₂ := by
    have h : ((⌊h₂⌋.toNat : ℤ) : ℚ) ≤ h₂ := by
      rw [Int.toNat_of_nonneg hfl₂]; exact Int.floor_le h₂
    exact_mod_cast h
  have hi₁lt : h₁ < ((⌊h₁⌋.toNat : ℕ) : ℚ) + 1 := by
    have h : h₁ < ((⌊h₁⌋.toNat : ℤ) : ℚ) + 1 := by
      rw [Int.toNat_of_nonneg hfl₁]; exact Int.lt_floor_add_one h₁
    exact_mod_cast h
  have hii : ⌊h₁⌋.toNat ≤ ⌊h₂⌋.toNat :=
    Int.toNat_le_toNat (Int.floor_le_floor h12)
  have hi₂n : ⌊h₂⌋.toNat ≤ s.length - 1 := by
    have h : ⌊h₂⌋ ≤ ⌊((s.length - 1 : ℕ) : ℚ)⌋ := Int.floor_le_floor hn
    rw [Int.floor_natCast] at h
    have h' := Int.toNat_le_toNat h
    simpa using h'
  have hi₂lt_n : ⌊h₂⌋.toNat < s.length :=
    lt_of_le_of_lt hi₂n (Nat.sub_lt npos Nat.one_pos)
  have hi₁n : ⌊h₁⌋.toNat ≤ s.length - 1 := hii.trans hi₂n
  have e₁ : interpAt s h₁ =
      s.getD ⌊h₁⌋.toNat 0 + (h₁ - (⌊h₁⌋.toNat : ℚ)) *
        (s.getD (min (⌊h₁⌋.toNat + 1) (s.length - 1)) 0 - s.getD ⌊h₁⌋.toNat 0) := rfl
  have e₂ : interpAt s h₂ =
      s.getD ⌊h₂⌋.toNat 0 + (h₂ - (⌊h₂⌋.toNat : ℚ)) *
        (s.getD (min (⌊h₂⌋.toNat + 1) (s.length - 1)) 0 - s.getD ⌊h₂⌋.toNat 0) := rfl
  have hminlt₁ : min (⌊h₁⌋.toNat + 1) (s.length - 1) < s.length :=
    lt_of_le_of_lt (min_le_right _ _) (Nat.sub_lt npos Nat.one_pos)
  have hminlt₂ : min (⌊h₂⌋.toNat + 1) (s.length - 1) < s.length :=
    lt_of_le_of_lt (min_le_right _ _) (Nat.sub_lt npos Nat.one_pos)
  have ha₁ : s.getD ⌊h₁⌋.toNat 0 ≤ s.getD (min (⌊h₁⌋.toNat + 1) (s.length - 1)) 0 :=
    sorted_getD_mono s hs _ _ (le_min (Nat.le_succ _) hi₁n) hminlt₁
  have ha₂ : s.getD ⌊h₂⌋.toNat 0 ≤ s.getD (min (⌊h₂⌋.toNat + 1) (s.length - 1)) 0 :=
    sorted_getD_mono s hs _ _ (le_min (Nat.le_succ _) hi₂n) hminlt₂
  rcases eq_or_lt_of_le hii with heq | hlt
  · rw [e₁, e₂, heq]
    have hd : (0 : ℚ) ≤ s.getD (min (⌊h₂⌋.toNat + 1) (s.length - 1)) 0 -
        s.getD ⌊h₂⌋.toNat 0 := sub_nonneg.mpr ha₂
    nlinarith [mul_nonneg (sub_nonneg.mpr h12) hd]
  · have hstep : min (⌊h₁⌋.toNat + 1) (s.length - 1) ≤ ⌊h₂⌋.toNat :=
      le_trans (min_le_left _ _) (Nat.succ_le_of_lt hlt)
    have hmid : s.getD (min (⌊h₁⌋.toNat + 1) (s.length - 1)) 0 ≤ s.getD ⌊h₂⌋.toNat 0 :=
      sorted_getD_mono s hs _ _ hstep hi₂lt_n
    have hup : interpAt s h₁ ≤ s.getD (min (⌊h₁⌋.toNat + 1) (s.length - 1)) 0 := by
      rw [e₁]
      nlinarith [ha₁, hi₁le, hi₁lt]
    have hlow : s.getD ⌊h₂⌋.toNat 0 ≤ interpAt s h₂ := by
      rw [e₂]
      nlinarith [ha₂, hi₂le]
    linarith

/-- The quantile estimate is monotone in the requested quantile. -/
theorem quantile_mono (xs : List ℚ) (hne : xs ≠ []) {p₁ p₂ : ℚ}
    (h0 : 0 ≤ p₁) (h12 : p₁ ≤ p₂) (h1 : p₂ ≤ 1) :
    quantile xs p₁ ≤ quantile xs p₂ := by
  have hsne : List.insertionSort (· ≤ ·) xs ≠ [] := by
    intro h
    apply hne
    have hp := List.perm_insertionSort (· ≤ ·) xs
    rw [h] at hp
    exact (hp.symm).eq_nil
  have hs : (List.insertionSort (· ≤ ·) xs).Sorted (· ≤ ·) :=
    List.sorted_insertionSort _ xs
  unfold quantile
  apply interpAt_mono _ hs hsne
  · exact mul_nonneg (Nat.cast_nonneg _) h0
  · exact mul_le_mul_of_nonneg_left h12 (Nat.cast_nonneg _)
  · calc ((((List.insertionSort (· ≤ ·) xs).length - 1 : ℕ) : ℚ)) * p₂ ≤
        ((((List.insertionSort (· ≤ ·) xs).length - 1 : ℕ) : ℚ)) * 1 :=
          mul_le_mul_of_nonneg_left h1 (Nat.cast_nonneg _)
    _ = _ := mul_one _

/-- C1: the outliers result lists exactly the numeric columns having a
non-null value (columns with none are omitted, no zero/NaN record), and
for each the reported fences are Q1 − 1.5·IQR and Q3 + 1.5·IQR and
satisfy lower ≤ Q1 ≤ Q3 ≤ upper. -/
theorem check_numeric_outliers_bounds (df : DataFrame) :
    check_numeric_outliers df =
      (df.cols.filter (fun c => c.isNumeric && !c.nonNullNums.isEmpty)).map
        (fun c => (c.name, outlierRecordOf df c)) ∧
    ∀ c ∈ df.cols, c.isNumeric = true → c.nonNullNums ≠ [] →
      (outlierRecordOf df c).lower_bound =
          quantile c.nonNullNums (1 / 4) -
            (3 / 2) * (quantile c.nonNullNums (3 / 4) - quantile c.nonNullNums (1 / 4)) ∧
      (outlierRecordOf df c).upper_bound =
          quantile c.nonNullNums (3 / 4) +
            (3 / 2) * (quantile c.nonNullNums (3 / 4) - quantile c.nonNullNums (1 / 4)) ∧
      (outlierRecordOf df c).lower_bound ≤ quantile c.nonNullNums (1 / 4) ∧
      quantile c.nonNullNums (1 / 4) ≤ quantile c.nonNullNums (3 / 4) ∧
      quantile c.nonNullNums (3 / 4) ≤ (outlierRecordOf df c).upper_bound := by
  constructor
  · unfold check_numeric_outliers
    induction df.cols with
    | nil => rfl
    | cons x xs ih =>
      simp only [List.isEmpty_iff] at ih
      by_cases hni : x.isNumeric
      · by_cases hei : x.nonNullNums = []
        · simp [List.filter_cons, List.filterMap_cons, hni, hei, ih]
        · simp [List.filter_cons, List.filterMap_cons, hni, hei, ih]
      · simp [List.filter_cons, hni, ih]
  · intro c _ _ hne
    have hq : quantile c.nonNullNums (1 / 4) ≤ quantile c.nonNullNums (3 / 4) :=
      quantile_mono c.nonNullNums hne (by norm_num) (by norm_num) (by norm_num)
    refine ⟨rfl, rfl, ?_, hq, ?_⟩ <;> · simp only [outlierRecordOf]; linarith

/-- Witness for C1 at the column [1, 2, 3, 4, 5, 100]: fences are ordered
around the quartiles. -/
theorem check_numeric_outliers_bounds_witness :
    (Col.mk "v" Dtype.int64 [Cell.num 1, Cell.num 2, Cell.num 3, Cell.num 4,
        Cell.num 5, Cell.num 100]).isNumeric = true ∧
    (outlierRecordOf ⟨[⟨"v", Dtype.int64, [Cell.num 1, Cell.num 2, Cell.num 3,
        Cell.num 4, Cell.num 5, Cell.num 100]⟩]⟩
      ⟨"v", Dtype.int64, [Cell.num 1, Cell.num 2, Cell.num 3, Cell.num 4,
        Cell.num 5, Cell.num 100]⟩).lower_bound ≤
      quantile (Col.mk "v" Dtype.int64 [Cell.num 1, Cell.num 2, Cell.num 3,
        Cell.num 4, Cell.num 5, Cell.num 100]).nonNullNums (1 / 4) := by
  refine ⟨by decide, ?_⟩
  exact ((check_numeric_outliers_bounds ⟨[⟨"v", Dtype.int64,
    [Cell.num 1, Cell.num 2, Cell.num 3, Cell.num 4, Cell.num 5, Cell.num 100]⟩]⟩).2
    _ (by simp) (by decide) (by decide)).2.2.1

/-- The numeric column of Scenario B: values [1, 2, 3, 4, 5, 100]. -/
def scenarioBCol : Col :=
  ⟨"v", Dtype.int64,
    [Cell.num 1, Cell.num 2, Cell.num 3, Cell.num 4, Cell.num 5, Cell.num 100]⟩

/-- The one-column frame of Scenario B. -/
def scenarioBFrame : DataFrame := ⟨[scenarioBCol]⟩

/-- C2: on [1, 2, 3, 4, 5, 100] the linear-interpolation quartiles are
Q1 = 2.25 and Q3 = 4.75, the IQR is 2.5, and the reported record carries
bounds −1.5 and 8.5 with exactly one outlier (the value 100), at 50/3
percent of the six rows. -/
theorem scenarioB_outlier_report :
    quantile scenarioBCol.nonNullNums (1 / 4) = 9 / 4 ∧
    quantile scenarioBCol.nonNullNums (3 / 4) = 19 / 4 ∧
    quantile scenarioBCol.nonNullNums (3 / 4) -
        quantile scenarioBCol.nonNullNums (1 / 4) = 5 / 2 ∧
    check_numeric_outliers scenarioBFrame =
      [("v", { outlier_count := 1, outlier_percentage := some (50 / 3),
               lower_bound := -(3 / 2), upper_bound := 17 / 2 })] := by
  have hxs : scenarioBCol.nonNullNums = [1, 2, 3, 4, 5, 100] := by
    simp [scenarioBCol, Col.nonNullNums, Cell.asNum]
  have h1 : quantile [(1 : ℚ), 2, 3, 4, 5, 100] (1 / 4) = 9 / 4 := by
    norm_num [quantile, interpAt, List.insertionSort, List.orderedInsert,
      Int.toNat, Int.floor_eq_iff]
  have h3 : quantile [(1 : ℚ), 2, 3, 4, 5, 100] (3 / 4) = 19 / 4 := by
    norm_num [quantile, interpAt, List.insertionSort, List.orderedInsert,
      Int.toNat, Int.floor_eq_iff]
  have hn6 : scenarioBFrame.nRows = 6 := rfl
  have hrec : outlierRecordOf scenarioBFrame scenarioBCol =
      { outlier_count := 1, outlier_percentage := some (50 / 3),
        lower_bound := -(3 / 2), upper_bound := 17 / 2 } := by
    simp only [outlierRecordOf, hxs, h1, h3, hn6]
    norm_num [npDiv, List.countP_cons, List.countP_nil]
  have hchk : check_numeric_outliers scenarioBFrame =
      [("v", outlierRecordOf scenarioBFrame scenarioBCol)] := rfl
  exact ⟨by rw [hxs]; exact h1, by rw [hxs]; exact h3,
    by rw [hxs, h1, h3]; norm_num, by rw [hchk, hrec]⟩

end DQC





